import Mathlib

/-!
Shallow embedding of srml/executive/src/lib.rs: the Executive block-execution
engine. The Executive is generic over its external collaborators (signature
checking via the address resolver, fee payment, the dispatcher, the
finalisation hook, the commitment functions); the embedding keeps that
genericity through the `Env` record. Fatal assertions and panics are
modelled as `none`; the Chain State interface (srml_system, which is not
among the provided sources) is modelled from the specification.
-/

set_option autoImplicit false

namespace Executive

/-- Outcome of dispatching a call: success or a business-logic failure reason. -/
abbrev DispatchResult := Except String Unit

namespace internal

/-- Internal apply-level errors: the detailed taxonomy of mod internal. -/
inductive ApplyError where
  | badSignature : String → ApplyError
  | stale : ApplyError
  | future : ApplyError
  | cantPay : ApplyError
deriving DecidableEq

/-- Internal apply outcomes: the detailed taxonomy of mod internal. -/
inductive ApplyOutcome where
  | success : ApplyOutcome
  | fail : String → ApplyOutcome
deriving DecidableEq

end internal

/-- Public apply-level errors (primitives::ApplyError, detail dropped). -/
inductive ApplyError where
  | badSignature : ApplyError
  | stale : ApplyError
  | future : ApplyError
  | cantPay : ApplyError
deriving DecidableEq

/-- Public apply outcomes (primitives::ApplyOutcome, detail dropped). -/
inductive ApplyOutcome where
  | success : ApplyOutcome
  | fail : ApplyOutcome
deriving DecidableEq

/-- A checked extrinsic: optional sender identity, declared nonce (index) and
the call, as produced by the Checkable implementation. -/
structure CheckedExtrinsic (Call : Type) where
  sender : Option Nat
  index : Nat
  call : Call
deriving DecidableEq

/-- Block header: number plus the four commitments compared during execution. -/
structure Header where
  number : Nat
  parent_hash : Nat
  extrinsics_root : Nat
  state_root : Nat
  digest : Nat
deriving DecidableEq

/-- A block: a header plus its ordered sequence of extrinsics. -/
structure Block (Xt : Type) where
  header : Header
  extrinsics : List Xt

/-- Modelled from the spec: the Chain State interface of srml_system (not among
the provided sources). Holds block metadata, the stored block-hash map,
per-account nonces and the per-block raw-extrinsic and applied-extrinsic logs. -/
structure ChainState where
  number : Nat
  parentHash : Nat
  extrinsicsRootDecl : Nat
  blockHash : Nat → Nat
  accountNonce : Nat → Nat
  rawLog : List (List Nat)
  appliedLog : List DispatchResult
  finishedExtrinsics : Bool

/-- Modelled from the spec: initialize(number, parent_hash, extrinsics_root)
seeds Chain State with the new block's number, parent hash and declared
extrinsics root. -/
def ChainState.initialise (s : ChainState) (number parentHash extrinsicsRoot : Nat) :
    ChainState :=
  { s with number := number, parentHash := parentHash, extrinsicsRootDecl := extrinsicsRoot, finishedExtrinsics := false }

/-- Modelled from the spec: append raw extrinsic bytes to the current block's
log (note_extrinsic). -/
def ChainState.noteExtrinsic (s : ChainState) (encoded : List Nat) : ChainState :=
  { s with rawLog := s.rawLog ++ [encoded] }

/-- Modelled from the spec: mark the extrinsic sequence complete
(note_finished_extrinsics). -/
def ChainState.noteFinishedExtrinsics (s : ChainState) : ChainState :=
  { s with finishedExtrinsics := true }

/-- Modelled from the spec: append an applied-extrinsic outcome to the log
(note_applied_extrinsic). -/
def ChainState.noteAppliedExtrinsic (s : ChainState) (r : DispatchResult) : ChainState :=
  { s with appliedLog := s.appliedLog ++ [r] }

/-- Modelled from the spec: increment an account's stored nonce
(inc_account_nonce). -/
def ChainState.incAccountNonce (s : ChainState) (who : Nat) : ChainState :=
  { s with accountNonce := fun a => if a = who then s.accountNonce a + 1 else s.accountNonce a }

/-- Modelled from the spec: finalize clears the transient per-block bookkeeping. -/
def ChainState.finalise (s : ChainState) : ChainState :=
  { s with rawLog := [], appliedLog := [], finishedExtrinsics := false }

/-- Full execution state: Chain State plus the world component mutated only by
the external collaborators (balances of Fee Payment, storage of dispatched
modules, state touched by the finalisation hook). -/
structure State (W : Type) where
  sys : ChainState
  world : W

/-- The external collaborators the generic Executive is parameterized over:
signature checking (Checkable combined with the address resolver's lookup),
encoding, fee payment, the Dispatcher, the finalisation hook and the
commitment functions for extrinsics root, digest and storage root. -/
structure Env (Xt Call W : Type) where
  check : Xt → Except String (CheckedExtrinsic Call)
  encode : Xt → List Nat
  makePayment : Nat → Nat → W → Option W
  dispatch : Call → Option Nat → W → DispatchResult × W
  onFinalise : Nat → W → W
  extrinsicsRoot : List (List Nat) → Nat
  readDigest : ChainState → W → Nat
  storageRoot : ChainState → W → Nat

/-- Executive::initialise_block: seed Chain State from the header. -/
def initialise_block {W : Type} (header : Header) (σ : State W) : State W :=
  { σ with sys := σ.sys.initialise header.number header.parent_hash header.extrinsics_root }

/-- Executive::initial_checks: the parent-linkage assertion (block number
positive and stored hash of the previous block equal to parent_hash) and the
extrinsics-root assertion. True exactly when both assertions pass. -/
def initial_checks {Xt Call W : Type} (env : Env Xt Call W) (b : Block Xt) (σ : State W) :
    Bool :=
  (decide (0 < b.header.number)
      && (σ.sys.blockHash (b.header.number - 1) == b.header.parent_hash))
    && (b.header.extrinsics_root == env.extrinsicsRoot (b.extrinsics.map env.encode))

/-- Tail of apply_extrinsic_no_note_with_len after the signed-sender block:
dispatch the call under the origin derived from the optional sender, record
the result in the applied-extrinsic log, and map it onto the internal
outcome. -/
def dispatchAndNote {Xt Call W : Type} (env : Env Xt Call W) (xt : CheckedExtrinsic Call)
    (σ : State W) : Except internal.ApplyError internal.ApplyOutcome × State W :=
  let rw := env.dispatch xt.call xt.sender σ.world
  let σ' : State W := { sys := σ.sys.noteAppliedExtrinsic rw.1, world := rw.2 }
  match rw.1 with
  | Except.ok _ => (Except.ok internal.ApplyOutcome.success, σ')
  | Except.error e => (Except.ok (internal.ApplyOutcome.fail e), σ')

/-- Executive::apply_extrinsic_no_note_with_len: verify the signature; for a
signed extrinsic compare the declared nonce with the stored one (Stale /
Future), pay the fee (CantPay) and increment the nonce; then dispatch and
record the outcome. An early error leaves the state untouched. -/
def apply_extrinsic_no_note_with_len {Xt Call W : Type} (env : Env Xt Call W) (uxt : Xt)
    (encoded_len : Nat) (σ : State W) :
    Except internal.ApplyError internal.ApplyOutcome × State W :=
  match env.check uxt with
  | Except.error e => (Except.error (internal.ApplyError.badSignature e), σ)
  | Except.ok xt =>
    match xt.sender with
    | some sender =>
      let expected := σ.sys.accountNonce sender
      if xt.index ≠ expected then
        (Except.error
          (if xt.index < expected then internal.ApplyError.stale
           else internal.ApplyError.future), σ)
      else
        match env.makePayment sender encoded_len σ.world with
        | none => (Except.error internal.ApplyError.cantPay, σ)
        | some w =>
          dispatchAndNote env xt { sys := σ.sys.incAccountNonce sender, world := w }
    | none => dispatchAndNote env xt σ

/-- The mapping from the detailed internal taxonomy onto the coarse public one
used by the standalone apply_extrinsic entry point (messages dropped). -/
def coarsen :
    Except internal.ApplyError internal.ApplyOutcome → Except ApplyError ApplyOutcome
  | Except.ok internal.ApplyOutcome.success => Except.ok ApplyOutcome.success
  | Except.ok (internal.ApplyOutcome.fail _) => Except.ok ApplyOutcome.fail
  | Except.error internal.ApplyError.cantPay => Except.error ApplyError.cantPay
  | Except.error (internal.ApplyError.badSignature _) => Except.error ApplyError.badSignature
  | Except.error internal.ApplyError.stale => Except.error ApplyError.stale
  | Except.error internal.ApplyError.future => Except.error ApplyError.future

/-- Executive::apply_extrinsic: note the raw encoded extrinsic first, then
delegate to the shared routine with the encoded length and coarsen the
result into the public taxonomy. Total: no panic. -/
def apply_extrinsic {Xt Call W : Type} (env : Env Xt Call W) (uxt : Xt) (σ : State W) :
    Except ApplyError ApplyOutcome × State W :=
  let encoded := env.encode uxt
  let encoded_len := encoded.length
  let σ₁ : State W := { σ with sys := σ.sys.noteExtrinsic encoded }
  let rσ := apply_extrinsic_no_note_with_len env uxt encoded_len σ₁
  (coarsen rσ.1, rσ.2)

/-- Executive::apply_extrinsic_no_note: the in-block path. Success is silent,
Fail emits its reason as a diagnostic (second component), and every
apply-level error panics, modelled as none. Never notes the raw extrinsic. -/
def apply_extrinsic_no_note {Xt Call W : Type} (env : Env Xt Call W) (uxt : Xt)
    (σ : State W) : Option (State W × Option String) :=
  match apply_extrinsic_no_note_with_len env uxt (env.encode uxt).length σ with
  | (Except.ok internal.ApplyOutcome.success, σ') => some (σ', none)
  | (Except.ok (internal.ApplyOutcome.fail e), σ') => some (σ', some e)
  | (Except.error _, _) => none

/-- Apply every extrinsic of the block in order through the no-note path; a
panic anywhere aborts the whole run, and the emitted diagnostics accumulate
in order. -/
def applyAll {Xt Call W : Type} (env : Env Xt Call W) :
    List Xt → State W → Option (State W × List String)
  | [], σ => some (σ, [])
  | x :: xs, σ =>
    match apply_extrinsic_no_note env x σ with
    | none => none
    | some (σ', d) =>
      match applyAll env xs σ' with
      | none => none
      | some (σ'', ds) => some (σ'', d.toList ++ ds)

/-- Chain State bookkeeping after the last extrinsic of the block. -/
def note_finished_extrinsics {W : Type} (σ : State W) : State W :=
  { σ with sys := σ.sys.noteFinishedExtrinsics }

/-- Invoke the finalisation hook for the given block number. -/
def run_on_finalise {Xt Call W : Type} (env : Env Xt Call W) (n : Nat) (σ : State W) :
    State W :=
  { σ with world := env.onFinalise n σ.world }

/-- Executive::final_checks: assert the digest against the accumulated one,
finalise Chain State (clearing transients), then assert the storage root. -/
def final_checks {Xt Call W : Type} (env : Env Xt Call W) (header : Header) (σ : State W) :
    Option (State W) :=
  if header.digest ≠ env.readDigest σ.sys σ.world then none
  else
    let σ' : State W := { σ with sys := σ.sys.finalise }
    if header.state_root ≠ env.storageRoot σ'.sys σ'.world then none
    else some σ'

/-- Executive::execute_block: initialise, run the initial checks, apply every
extrinsic via the no-note path, mark the sequence finished, run the
finalisation hook once, then run the final checks. A failed assertion or a
panic yields none; success yields the final state and the diagnostics. -/
def execute_block {Xt Call W : Type} (env : Env Xt Call W) (b : Block Xt) (σ : State W) :
    Option (State W × List String) :=
  let σ₁ := initialise_block b.header σ
  if initial_checks env b σ₁ then
    match applyAll env b.extrinsics σ₁ with
    | none => none
    | some (σ₂, ds) =>
      let σ₃ := note_finished_extrinsics σ₂
      let σ₄ := run_on_finalise env b.header.number σ₃
      match final_checks env b.header σ₄ with
      | none => none
      | some σ₅ => some (σ₅, ds)
  else none

/-- Concrete extrinsic type for evaluation: none is a garbage extrinsic whose
signature check fails, some c is an extrinsic that checks to c. -/
abbrev TestXt := Option (CheckedExtrinsic Nat)

/-- A small concrete instantiation of the collaborators for evaluating the
theorems: the world is a single balance, the fee is one unit per encoded
byte, call 0 succeeds and every other call fails. -/
def testEnv : Env TestXt Nat Nat where
  check := fun u => match u with
    | none => Except.error "invalid signature"
    | some c => Except.ok c
  encode := fun _ => [7]
  makePayment := fun _ len w => if len ≤ w then some (w - len) else none
  dispatch := fun c _ w =>
    if c = 0 then (Except.ok (), w + 1) else (Except.error "call failed", w)
  onFinalise := fun _ w => w
  extrinsicsRoot := fun l => l.length
  readDigest := fun _ _ => 0
  storageRoot := fun _ _ => 0

/-- Concrete start state: every stored block hash 0, every account nonce 5,
empty logs, balance 10. -/
def σ0 : State Nat := ⟨⟨1, 0, 0, fun _ => 0, fun _ => 5, [], [], false⟩, 10⟩

/-- Concrete start state with an empty balance. -/
def σpoor : State Nat := ⟨σ0.sys, 0⟩

/-- A signed extrinsic from account 3 whose declared nonce 2 is stale. -/
def xtStale : TestXt := some ⟨some 3, 2, 0⟩

/-- A signed extrinsic from account 3 whose declared nonce 9 is in the future. -/
def xtFuture : TestXt := some ⟨some 3, 9, 0⟩

/-- A correctly-nonced signed extrinsic from account 3 whose call succeeds. -/
def xtOk : TestXt := some ⟨some 3, 5, 0⟩

/-- A correctly-nonced signed extrinsic from account 3 whose call fails. -/
def xtFail : TestXt := some ⟨some 3, 5, 1⟩

/-- An extrinsic whose signature check fails. -/
def xtBadSig : TestXt := none

/-- A block whose declared extrinsics root 99 does not match the recomputed
root 0 of its empty extrinsic list. -/
def bBadRoot : Block TestXt := ⟨⟨1, 0, 99, 0, 0⟩, []⟩

/-- A block with header number zero. -/
def bZero : Block TestXt := ⟨⟨0, 0, 0, 0, 0⟩, []⟩

/-- A block whose parent_hash 77 does not equal the stored hash 0 of block 0. -/
def bBadParent : Block TestXt := ⟨⟨1, 77, 0, 0, 0⟩, []⟩

/-- An empty block whose four commitments all match what σ0 and testEnv
recompute. -/
def bGood : Block TestXt := ⟨⟨1, 0, 0, 0, 0⟩, []⟩

/-- The state after applying xtFail to σ0: fee of 1 debited from balance 10,
nonce of account 3 bumped to 6, failure recorded in the applied log. -/
def σfail : State Nat :=
  ⟨⟨1, 0, 0, fun _ => 0, fun a => if a = 3 then 6 else 5, [],
    [Except.error "call failed"], false⟩, 9⟩

/-- The state after applying xtOk to σ0: fee of 1 debited, the successful call
credits 1 back, nonce of account 3 bumped to 6, success recorded. -/
def σgood : State Nat :=
  ⟨⟨1, 0, 0, fun _ => 0, fun a => if a = 3 then 6 else 5, [],
    [Except.ok ()], false⟩, 10⟩

/-- The dispatch-and-record tail never reads or writes the raw-extrinsic log:
running it on a state whose raw log is replaced by L gives the same result
and the same final state with its raw log replaced by L. -/
theorem dispatchAndNote_rawLog_comm {Xt Call W : Type} (env : Env Xt Call W)
    (xt : CheckedExtrinsic Call) (σ : State W) (L : List (List Nat)) :
    dispatchAndNote env xt ⟨{ σ.sys with rawLog := L }, σ.world⟩ =
      ((dispatchAndNote env xt σ).1,
       ⟨{ (dispatchAndNote env xt σ).2.sys with rawLog := L },
        (dispatchAndNote env xt σ).2.world⟩) := by
  unfold dispatchAndNote
  dsimp only
  rcases hd : env.dispatch xt.call xt.sender σ.world with ⟨r, w'⟩
  rcases r with r | e <;> simp [ChainState.noteAppliedExtrinsic]

/-- The shared apply routine never reads or writes the raw-extrinsic log:
running it on a state whose raw log is replaced by L gives the same result
and the same final state with its raw log replaced by L. -/
theorem with_len_rawLog_comm {Xt Call W : Type} (env : Env Xt Call W) (uxt : Xt)
    (l : Nat) (σ : State W) (L : List (List Nat)) :
    apply_extrinsic_no_note_with_len env uxt l ⟨{ σ.sys with rawLog := L }, σ.world⟩ =
      ((apply_extrinsic_no_note_with_len env uxt l σ).1,
       ⟨{ (apply_extrinsic_no_note_with_len env uxt l σ).2.sys with rawLog := L },
        (apply_extrinsic_no_note_with_len env uxt l σ).2.world⟩) := by
  unfold apply_extrinsic_no_note_with_len
  rcases hc : env.check uxt with e | xt
  · rfl
  · dsimp only
    rcases hsd : xt.sender with _ | s
    · exact dispatchAndNote_rawLog_comm env xt σ L
    · by_cases h : xt.index = σ.sys.accountNonce s
      · simp only [h, ne_eq, not_true_eq_false, if_false, ite_false]
        rcases hp : env.makePayment s l σ.world with _ | w'
        · rfl
        · exact dispatchAndNote_rawLog_comm env xt ⟨σ.sys.incAccountNonce s, w'⟩ L
      · simp only [ne_eq, h, not_false_eq_true, if_true, ite_true]

/-- Characterisation of final_checks: it succeeds exactly when the digest and
the storage root match the recomputed values, and then only finalises Chain
State. -/
theorem final_checks_eq_some {Xt Call W : Type} (env : Env Xt Call W) (header : Header)
    (σ σ' : State W) :
    final_checks env header σ = some σ' ↔
      (header.digest = env.readDigest σ.sys σ.world ∧
       header.state_root = env.storageRoot σ.sys.finalise σ.world ∧
       σ' = ⟨σ.sys.finalise, σ.world⟩) := by
  unfold final_checks
  by_cases h1 : header.digest = env.readDigest σ.sys σ.world <;>
    by_cases h2 : header.state_root = env.storageRoot σ.sys.finalise σ.world <;>
      simp [h1, h2, eq_comm]

/-- C7: an extrinsic whose signature verification fails is rejected with the
BadSignature apply-level error and the state is completely unchanged: no
nonce increment and no fee debit. -/
theorem bad_signature_rejected_no_mutation {Xt Call W : Type} (env : Env Xt Call W)
    (uxt : Xt) (encoded_len : Nat) (σ : State W) (m : String)
    (hc : env.check uxt = Except.error m) :
    apply_extrinsic_no_note_with_len env uxt encoded_len σ =
      (Except.error (internal.ApplyError.badSignature m), σ) := by
  simp [apply_extrinsic_no_note_with_len, hc]

/-- Witness for C7 at a concrete garbage extrinsic. -/
theorem bad_signature_rejected_no_mutation_witness :
    testEnv.check xtBadSig = Except.error "invalid signature" ∧
    apply_extrinsic_no_note_with_len testEnv xtBadSig 1 σ0 =
      (Except.error (internal.ApplyError.badSignature "invalid signature"), σ0) :=
  ⟨rfl, bad_signature_rejected_no_mutation testEnv xtBadSig 1 σ0 "invalid signature" rfl⟩

/-- C10: a block whose header number is zero is rejected fatally by
execute_block regardless of every other field, because the parent-linkage
assertion requires a strictly positive block number. -/
theorem zero_number_block_rejected {Xt Call W : Type} (env : Env Xt Call W)
    (b : Block Xt) (σ : State W) (h : b.header.number = 0) :
    execute_block env b σ = none := by
  have hic : initial_checks env b (initialise_block b.header σ) = false := by
    simp [initial_checks, h]
  simp [execute_block, hic]

/-- Witness for C10 at a concrete block with header number zero. -/
theorem zero_number_block_rejected_witness :
    bZero.header.number = 0 ∧ execute_block testEnv bZero σ0 = none :=
  ⟨rfl, zero_number_block_rejected testEnv bZero σ0 rfl⟩

/-- C1: a signed extrinsic whose declared nonce is strictly below the stored
expected nonce is rejected as Stale, strictly above as Future, and in both
cases the state (in particular the sender's nonce and the balances world) is
completely unchanged. -/
theorem stale_future_rejected_no_mutation {Xt Call W : Type} (env : Env Xt Call W)
    (uxt : Xt) (encoded_len : Nat) (σ : State W) (c : CheckedExtrinsic Call) (s : Nat)
    (hc : env.check uxt = Except.ok c) (hs : c.sender = some s) :
    (c.index < σ.sys.accountNonce s →
       apply_extrinsic_no_note_with_len env uxt encoded_len σ =
         (Except.error internal.ApplyError.stale, σ)) ∧
    (σ.sys.accountNonce s < c.index →
       apply_extrinsic_no_note_with_len env uxt encoded_len σ =
         (Except.error internal.ApplyError.future, σ)) := by
  constructor
  · intro hlt
    have hne : c.index ≠ σ.sys.accountNonce s := Nat.ne_of_lt hlt
    simp [apply_extrinsic_no_note_with_len, hc, hs, hne, hlt]
  · intro hgt
    have hne : c.index ≠ σ.sys.accountNonce s := Nat.ne_of_gt hgt
    have hnlt : ¬ c.index < σ.sys.accountNonce s := Nat.not_lt.mpr (Nat.le_of_lt hgt)
    simp [apply_extrinsic_no_note_with_len, hc, hs, hne, hnlt]

/-- Witness for C1: a stale and a future extrinsic against nonce 5. -/
theorem stale_future_rejected_no_mutation_witness :
    (testEnv.check xtStale = Except.ok ⟨some 3, 2, 0⟩ ∧ (2 : Nat) < σ0.sys.accountNonce 3 ∧
      apply_extrinsic_no_note_with_len testEnv xtStale 1 σ0 =
        (Except.error internal.ApplyError.stale, σ0)) ∧
    (testEnv.check xtFuture = Except.ok ⟨some 3, 9, 0⟩ ∧ σ0.sys.accountNonce 3 < 9 ∧
      apply_extrinsic_no_note_with_len testEnv xtFuture 1 σ0 =
        (Except.error internal.ApplyError.future, σ0)) :=
  ⟨⟨rfl, by decide,
    (stale_future_rejected_no_mutation testEnv xtStale 1 σ0 ⟨some 3, 2, 0⟩ 3 rfl rfl).1
      (by decide)⟩,
   ⟨rfl, by decide,
    (stale_future_rejected_no_mutation testEnv xtFuture 1 σ0 ⟨some 3, 9, 0⟩ 3 rfl rfl).2
      (by decide)⟩⟩

/-- C2: for a signed, correctly-nonced extrinsic, a fee-payment failure yields
the CantPay apply-level error and the whole apply is a no-op on the state
(in particular no nonce increment), while a fee-payment success is followed
by the nonce increment and the dispatch running on the debited world: the
fee debit and the nonce increment happen as an atomic pair. -/
theorem cant_pay_rejected_atomic {Xt Call W : Type} (env : Env Xt Call W) (uxt : Xt)
    (encoded_len : Nat) (σ : State W) (c : CheckedExtrinsic Call) (s : Nat)
    (hc : env.check uxt = Except.ok c) (hs : c.sender = some s)
    (hn : c.index = σ.sys.accountNonce s) :
    (env.makePayment s encoded_len σ.world = none →
       apply_extrinsic_no_note_with_len env uxt encoded_len σ =
         (Except.error internal.ApplyError.cantPay, σ)) ∧
    (∀ w, env.makePayment s encoded_len σ.world = some w →
       (apply_extrinsic_no_note_with_len env uxt encoded_len σ).2.sys.accountNonce s =
         σ.sys.accountNonce s + 1 ∧
       (apply_extrinsic_no_note_with_len env uxt encoded_len σ).2.world =
         (env.dispatch c.call c.sender w).2) := by
  constructor
  · intro hp
    simp [apply_extrinsic_no_note_with_len, hc, hs, hn, hp]
  · intro w hp
    rcases hd : env.dispatch c.call (some s) w with ⟨r, w'⟩
    have hd' : env.dispatch c.call c.sender w = (r, w') := by rw [hs]; exact hd
    rcases r with r | e <;>
      simp [apply_extrinsic_no_note_with_len, hc, hs, hn, hp, dispatchAndNote, hd, hd',
        ChainState.incAccountNonce, ChainState.noteAppliedExtrinsic]

/-- Witness for C2: payment failure on the empty balance leaves the state
untouched, payment success on balance 10 increments the nonce and threads
the debited balance through dispatch. -/
theorem cant_pay_rejected_atomic_witness :
    testEnv.check xtOk = Except.ok ⟨some 3, 5, 0⟩ ∧
    testEnv.makePayment 3 1 σpoor.world = none ∧
    apply_extrinsic_no_note_with_len testEnv xtOk 1 σpoor =
      (Except.error internal.ApplyError.cantPay, σpoor) ∧
    testEnv.makePayment 3 1 σ0.world = some 9 ∧
    (apply_extrinsic_no_note_with_len testEnv xtOk 1 σ0).2.sys.accountNonce 3 =
      σ0.sys.accountNonce 3 + 1 ∧
    (apply_extrinsic_no_note_with_len testEnv xtOk 1 σ0).2.world =
      (testEnv.dispatch 0 (some 3) 9).2 :=
  ⟨rfl, rfl,
   (cant_pay_rejected_atomic testEnv xtOk 1 σpoor ⟨some 3, 5, 0⟩ 3 rfl rfl rfl).1 rfl,
   rfl,
   ((cant_pay_rejected_atomic testEnv xtOk 1 σ0 ⟨some 3, 5, 0⟩ 3 rfl rfl rfl).2 9 rfl).1,
   ((cant_pay_rejected_atomic testEnv xtOk 1 σ0 ⟨some 3, 5, 0⟩ 3 rfl rfl rfl).2 9 rfl).2⟩

/-- C3: a valid, correctly-nonced signed extrinsic whose dispatched call fails
still debits the fee and increments the sender's nonce, records the failure
in the applied-extrinsic log, and yields the Fail outcome rather than an
apply-level error; neither entry point treats it as fatal. -/
theorem dispatch_failure_still_charged {Xt Call W : Type} (env : Env Xt Call W) (uxt : Xt)
    (σ : State W) (c : CheckedExtrinsic Call) (s : Nat) (w w' : W) (e : String)
    (hc : env.check uxt = Except.ok c) (hs : c.sender = some s)
    (hn : c.index = σ.sys.accountNonce s)
    (hp : env.makePayment s (env.encode uxt).length σ.world = some w)
    (hd : env.dispatch c.call c.sender w = (Except.error e, w')) :
    apply_extrinsic_no_note_with_len env uxt (env.encode uxt).length σ =
      (Except.ok (internal.ApplyOutcome.fail e),
       ⟨(σ.sys.incAccountNonce s).noteAppliedExtrinsic (Except.error e), w'⟩) ∧
    apply_extrinsic_no_note env uxt σ =
      some (⟨(σ.sys.incAccountNonce s).noteAppliedExtrinsic (Except.error e), w'⟩, some e) ∧
    (apply_extrinsic env uxt σ).1 = Except.ok ApplyOutcome.fail := by
  have hd' : env.dispatch c.call (some s) w = (Except.error e, w') := by rw [← hs]; exact hd
  have h1 : apply_extrinsic_no_note_with_len env uxt (env.encode uxt).length σ =
      (Except.ok (internal.ApplyOutcome.fail e),
       ⟨(σ.sys.incAccountNonce s).noteAppliedExtrinsic (Except.error e), w'⟩) := by
    simp [apply_extrinsic_no_note_with_len, hc, hs, hn, hp, dispatchAndNote, hd']
  refine ⟨h1, ?_, ?_⟩
  · simp [apply_extrinsic_no_note, h1]
  · have hcomm :
        apply_extrinsic_no_note_with_len env uxt (env.encode uxt).length
            { σ with sys := σ.sys.noteExtrinsic (env.encode uxt) } =
          ((apply_extrinsic_no_note_with_len env uxt (env.encode uxt).length σ).1,
           ⟨{ (apply_extrinsic_no_note_with_len env uxt (env.encode uxt).length σ).2.sys with
                rawLog := σ.sys.rawLog ++ [env.encode uxt] },
            (apply_extrinsic_no_note_with_len env uxt (env.encode uxt).length σ).2.world⟩) :=
      with_len_rawLog_comm env uxt (env.encode uxt).length σ (σ.sys.rawLog ++ [env.encode uxt])
    simp [apply_extrinsic, hcomm, h1, coarsen]

/-- Witness for C3 at the concrete failing call. -/
theorem dispatch_failure_still_charged_witness :
    testEnv.check xtFail = Except.ok ⟨some 3, 5, 1⟩ ∧
    testEnv.makePayment 3 (testEnv.encode xtFail).length σ0.world = some 9 ∧
    testEnv.dispatch 1 (some 3) 9 = (Except.error "call failed", 9) ∧
    apply_extrinsic_no_note testEnv xtFail σ0 =
      some (⟨(σ0.sys.incAccountNonce 3).noteAppliedExtrinsic (Except.error "call failed"), 9⟩,
        some "call failed") ∧
    (apply_extrinsic testEnv xtFail σ0).1 = Except.ok ApplyOutcome.fail :=
  ⟨rfl, rfl, rfl,
   (dispatch_failure_still_charged testEnv xtFail σ0 ⟨some 3, 5, 1⟩ 3 9 9 "call failed"
      rfl rfl rfl rfl rfl).2.1,
   (dispatch_failure_still_charged testEnv xtFail σ0 ⟨some 3, 5, 1⟩ 3 9 9 "call failed"
      rfl rfl rfl rfl rfl).2.2⟩

/-- C5: inside the no-note apply path a Fail outcome of the shared routine is
a normal result: the reason is emitted as a diagnostic and block execution
continues with the next extrinsics, whereas any apply-level error makes the
path panic, aborting the whole block. -/
theorem no_note_outcome_severity {Xt Call W : Type} (env : Env Xt Call W) (uxt : Xt)
    (σ : State W) :
    (∀ σ', apply_extrinsic_no_note_with_len env uxt (env.encode uxt).length σ =
        (Except.ok internal.ApplyOutcome.success, σ') →
      apply_extrinsic_no_note env uxt σ = some (σ', none)) ∧
    (∀ e σ', apply_extrinsic_no_note_with_len env uxt (env.encode uxt).length σ =
        (Except.ok (internal.ApplyOutcome.fail e), σ') →
      apply_extrinsic_no_note env uxt σ = some (σ', some e) ∧
      ∀ xs, applyAll env (uxt :: xs) σ =
        (match applyAll env xs σ' with
         | none => none
         | some (σ'', ds) => some (σ'', e :: ds))) ∧
    (∀ err σ', apply_extrinsic_no_note_with_len env uxt (env.encode uxt).length σ =
        (Except.error err, σ') →
      apply_extrinsic_no_note env uxt σ = none ∧
      ∀ xs, applyAll env (uxt :: xs) σ = none) := by
  refine ⟨?_, ?_, ?_⟩
  · intro σ' h
    simp [apply_extrinsic_no_note, h]
  · intro e σ' h
    have h2 : apply_extrinsic_no_note env uxt σ = some (σ', some e) := by
      simp [apply_extrinsic_no_note, h]
    refine ⟨h2, fun xs => ?_⟩
    rcases happ : applyAll env xs σ' with _ | ⟨σ'', ds⟩ <;> simp [applyAll, h2, happ]
  · intro err σ' h
    have h2 : apply_extrinsic_no_note env uxt σ = none := by
      simp [apply_extrinsic_no_note, h]
    exact ⟨h2, fun xs => by simp [applyAll, h2]⟩

/-- Witness for C5: the concrete failing call is a non-fatal diagnostic, the
concrete stale extrinsic is fatal for the block. -/
theorem no_note_outcome_severity_witness :
    apply_extrinsic_no_note_with_len testEnv xtFail (testEnv.encode xtFail).length σ0 =
      (Except.ok (internal.ApplyOutcome.fail "call failed"), σfail) ∧
    apply_extrinsic_no_note testEnv xtFail σ0 = some (σfail, some "call failed") ∧
    apply_extrinsic_no_note_with_len testEnv xtStale (testEnv.encode xtStale).length σ0 =
      (Except.error internal.ApplyError.stale, σ0) ∧
    apply_extrinsic_no_note testEnv xtStale σ0 = none ∧
    applyAll testEnv [xtStale] σ0 = none :=
  ⟨rfl,
   ((no_note_outcome_severity testEnv xtFail σ0).2.1 "call failed" σfail rfl).1,
   rfl,
   ((no_note_outcome_severity testEnv xtStale σ0).2.2 internal.ApplyError.stale σ0 rfl).1,
   ((no_note_outcome_severity testEnv xtStale σ0).2.2 internal.ApplyError.stale σ0 rfl).2 []⟩

/-- C6: execute_block is exactly the ordered pipeline: initialise_block, then
initial_checks, then the in-order application of every extrinsic through the
no-note path, then the sequence-complete signal, then exactly one invocation
of the finalisation hook, then final_checks. -/
theorem execute_block_pipeline_order {Xt Call W : Type} (env : Env Xt Call W)
    (b : Block Xt) (σ : State W) :
    execute_block env b σ =
      (if initial_checks env b (initialise_block b.header σ) then
        (applyAll env b.extrinsics (initialise_block b.header σ)).bind fun p =>
          (final_checks env b.header
              (run_on_finalise env b.header.number (note_finished_extrinsics p.1))).map
            fun σ₅ => (σ₅, p.2)
      else none) := by
  unfold execute_block
  by_cases h : initial_checks env b (initialise_block b.header σ)
  · simp only [h, if_true]
    rcases happ : applyAll env b.extrinsics (initialise_block b.header σ) with _ | ⟨σ₂, ds⟩
    · simp
    · simp only [Option.some_bind]
      rcases hfc : final_checks env b.header
          (run_on_finalise env b.header.number (note_finished_extrinsics σ₂)) with _ | σ₅ <;>
        simp [hfc]
  · simp [h]

/-- C4: structural-commitment violations reject the block fatally with no
recoverable value: an extrinsics-root mismatch yields none whatever the
extrinsics and collaborators would have done (rejection before any extrinsic
is applied), a parent-linkage mismatch yields none, and any value actually
produced certifies that the parent linkage held and that the digest and
state root equalled the values recomputed at finalisation. -/
theorem structural_checks_reject_block {Xt Call W : Type} (env : Env Xt Call W)
    (b : Block Xt) (σ : State W) :
    (b.header.extrinsics_root ≠ env.extrinsicsRoot (b.extrinsics.map env.encode) →
       execute_block env b σ = none) ∧
    (σ.sys.blockHash (b.header.number - 1) ≠ b.header.parent_hash →
       execute_block env b σ = none) ∧
    (∀ σ' ds, execute_block env b σ = some (σ', ds) →
       0 < b.header.number ∧
       σ.sys.blockHash (b.header.number - 1) = b.header.parent_hash ∧
       b.header.extrinsics_root = env.extrinsicsRoot (b.extrinsics.map env.encode) ∧
       ∃ σ₂ σ₄, applyAll env b.extrinsics (initialise_block b.header σ) = some (σ₂, ds) ∧
         σ₄ = run_on_finalise env b.header.number (note_finished_extrinsics σ₂) ∧
         b.header.digest = env.readDigest σ₄.sys σ₄.world ∧
         b.header.state_root = env.storageRoot σ₄.sys.finalise σ₄.world ∧
         σ' = ⟨σ₄.sys.finalise, σ₄.world⟩) := by
  refine ⟨?_, ?_, ?_⟩
  · intro hx
    have hic : initial_checks env b (initialise_block b.header σ) = false := by
      simp [initial_checks, hx]
    simp [execute_block, hic]
  · intro hp
    have hic : initial_checks env b (initialise_block b.header σ) = false := by
      simp [initial_checks, initialise_block, ChainState.initialise]
      intro _ h
      exact absurd h hp
    simp [execute_block, hic]
  · intro σ' ds h
    unfold execute_block at h
    by_cases hic : initial_checks env b (initialise_block b.header σ)
    · simp only [hic, if_true] at h
      rcases happ : applyAll env b.extrinsics (initialise_block b.header σ) with _ | ⟨σ₂, ds₂⟩ <;>
        rw [happ] at h
      · simp at h
      · dsimp only at h
        rcases hfc : final_checks env b.header
            (run_on_finalise env b.header.number (note_finished_extrinsics σ₂)) with _ | σ₅ <;>
          rw [hfc] at h
        · simp at h
        · have hparts := (final_checks_eq_some env b.header
            (run_on_finalise env b.header.number (note_finished_extrinsics σ₂)) σ₅).mp hfc
          have hchecks : (0 < b.header.number ∧
              σ.sys.blockHash (b.header.number - 1) = b.header.parent_hash) ∧
              b.header.extrinsics_root = env.extrinsicsRoot (b.extrinsics.map env.encode) := by
            simpa [initial_checks, initialise_block, ChainState.initialise] using hic
          have hinj : σ₅ = σ' ∧ ds₂ = ds := by simpa using h
          refine ⟨hchecks.1.1, hchecks.1.2, hchecks.2, σ₂,
            run_on_finalise env b.header.number (note_finished_extrinsics σ₂), ?_, rfl,
            hparts.1, hparts.2.1, ?_⟩
          · rw [hinj.2]
          · rw [← hinj.1]
            exact hparts.2.2
    · simp [hic] at h

/-- Witness for C4: a wrong extrinsics root and a wrong parent hash are both
rejected at concrete blocks. -/
theorem structural_checks_reject_block_witness :
    bBadRoot.header.extrinsics_root ≠
      testEnv.extrinsicsRoot (bBadRoot.extrinsics.map testEnv.encode) ∧
    execute_block testEnv bBadRoot σ0 = none ∧
    σ0.sys.blockHash (bBadParent.header.number - 1) ≠ bBadParent.header.parent_hash ∧
    execute_block testEnv bBadParent σ0 = none :=
  ⟨by decide,
   (structural_checks_reject_block testEnv bBadRoot σ0).1 (by decide),
   by decide,
   (structural_checks_reject_block testEnv bBadParent σ0).2.1 (by decide)⟩

/-- C8: the standalone entry point appends the raw encoded extrinsic to the
per-block raw-extrinsic log unconditionally, before the apply (so it is
recorded also when the apply errs), while the in-block no-note path never
appends to that log. -/
theorem note_extrinsic_asymmetry {Xt Call W : Type} (env : Env Xt Call W) (uxt : Xt)
    (σ : State W) :
    (apply_extrinsic env uxt σ).2.sys.rawLog = σ.sys.rawLog ++ [env.encode uxt] ∧
    (∀ σ' d, apply_extrinsic_no_note env uxt σ = some (σ', d) →
       σ'.sys.rawLog = σ.sys.rawLog) := by
  have hraw :
      (apply_extrinsic_no_note_with_len env uxt (env.encode uxt).length σ).2.sys.rawLog =
        σ.sys.rawLog := by
    have h3 :
        apply_extrinsic_no_note_with_len env uxt (env.encode uxt).length σ =
          ((apply_extrinsic_no_note_with_len env uxt (env.encode uxt).length σ).1,
           ⟨{ (apply_extrinsic_no_note_with_len env uxt (env.encode uxt).length σ).2.sys with
                rawLog := σ.sys.rawLog },
            (apply_extrinsic_no_note_with_len env uxt (env.encode uxt).length σ).2.world⟩) :=
      with_len_rawLog_comm env uxt (env.encode uxt).length σ σ.sys.rawLog
    conv_lhs => rw [h3]
  constructor
  · have hcomm :
        apply_extrinsic_no_note_with_len env uxt (env.encode uxt).length
            { σ with sys := σ.sys.noteExtrinsic (env.encode uxt) } =
          ((apply_extrinsic_no_note_with_len env uxt (env.encode uxt).length σ).1,
           ⟨{ (apply_extrinsic_no_note_with_len env uxt (env.encode uxt).length σ).2.sys with
                rawLog := σ.sys.rawLog ++ [env.encode uxt] },
            (apply_extrinsic_no_note_with_len env uxt (env.encode uxt).length σ).2.world⟩) :=
      with_len_rawLog_comm env uxt (env.encode uxt).length σ (σ.sys.rawLog ++ [env.encode uxt])
    simp [apply_extrinsic, hcomm]
  · intro σ' d h
    unfold apply_extrinsic_no_note at h
    rcases hw : apply_extrinsic_no_note_with_len env uxt (env.encode uxt).length σ with ⟨r, σw⟩
    rw [hw] at h hraw
    rcases r with err | r
    · simp at h
    · rcases r with _ | e <;> simp_all

/-- Witness for C8: the raw log after the standalone apply holds the encoded
extrinsic, the no-note path leaves it empty. -/
theorem note_extrinsic_asymmetry_witness :
    (apply_extrinsic testEnv xtOk σ0).2.sys.rawLog = σ0.sys.rawLog ++ [[7]] ∧
    apply_extrinsic_no_note testEnv xtOk σ0 = some (σgood, none) ∧
    σgood.sys.rawLog = σ0.sys.rawLog :=
  ⟨(note_extrinsic_asymmetry testEnv xtOk σ0).1, rfl,
   (note_extrinsic_asymmetry testEnv xtOk σ0).2 σgood none rfl⟩

/-- C9: the standalone entry point and the in-block no-note path delegate to
the same shared routine at the same encoded length: they yield the same
underlying apply result and the same state (nonces, world, applied log),
differing only in the one appended raw-extrinsic log entry and in how the
result is surfaced (coarsened recoverable result versus
diagnostic-or-panic). -/
theorem apply_paths_agree {Xt Call W : Type} (env : Env Xt Call W) (uxt : Xt)
    (σ : State W) :
    apply_extrinsic env uxt σ =
      (coarsen (apply_extrinsic_no_note_with_len env uxt (env.encode uxt).length σ).1,
       ⟨{ (apply_extrinsic_no_note_with_len env uxt (env.encode uxt).length σ).2.sys with
            rawLog := σ.sys.rawLog ++ [env.encode uxt] },
        (apply_extrinsic_no_note_with_len env uxt (env.encode uxt).length σ).2.world⟩) ∧
    (apply_extrinsic_no_note_with_len env uxt (env.encode uxt).length σ).2.sys.rawLog =
      σ.sys.rawLog ∧
    apply_extrinsic_no_note env uxt σ =
      (match apply_extrinsic_no_note_with_len env uxt (env.encode uxt).length σ with
       | (Except.ok internal.ApplyOutcome.success, σ') => some (σ', none)
       | (Except.ok (internal.ApplyOutcome.fail e), σ') => some (σ', some e)
       | (Except.error _, _) => none) := by
  refine ⟨?_, ?_, rfl⟩
  · have hcomm :
        apply_extrinsic_no_note_with_len env uxt (env.encode uxt).length
            { σ with sys := σ.sys.noteExtrinsic (env.encode uxt) } =
          ((apply_extrinsic_no_note_with_len env uxt (env.encode uxt).length σ).1,
           ⟨{ (apply_extrinsic_no_note_with_len env uxt (env.encode uxt).length σ).2.sys with
                rawLog := σ.sys.rawLog ++ [env.encode uxt] },
            (apply_extrinsic_no_note_with_len env uxt (env.encode uxt).length σ).2.world⟩) :=
      with_len_rawLog_comm env uxt (env.encode uxt).length σ (σ.sys.rawLog ++ [env.encode uxt])
    simp [apply_extrinsic, hcomm]
  · have h3 :
        apply_extrinsic_no_note_with_len env uxt (env.encode uxt).length σ =
          ((apply_extrinsic_no_note_with_len env uxt (env.encode uxt).length σ).1,
           ⟨{ (apply_extrinsic_no_note_with_len env uxt (env.encode uxt).length σ).2.sys with
                rawLog := σ.sys.rawLog },
            (apply_extrinsic_no_note_with_len env uxt (env.encode uxt).length σ).2.world⟩) :=
      with_len_rawLog_comm env uxt (env.encode uxt).length σ σ.sys.rawLog
    conv_lhs => rw [h3]

end Executive
